import Mathlib

/-!
Verification of the research-assistant pipeline (`src/deep_research.py`).

Shallow embedding conventions:
* Python strings are modelled as `List Char` (`Str`); `len` is `List.length`,
  `s[:k]` is `pytakeL k s` (which reproduces Python's clamping and
  negative-index slicing), `str.rfind` is modelled by scanning from the right.
* HTTP traffic is abstracted: each network call is an input of type
  `Except Str _` whose `.error` case models a raised exception carrying the
  rendered exception message, and whose `.ok` case carries the response.
* BeautifulSoup parsing is abstracted into a `Doc` value (document title,
  meta description, the element stream in document order, and the whole-page
  text); element lookup (`find_all`) is a filter over the element stream.
* Python integers are `Int`; `//` is `Int.fdiv`.
-/

set_option maxRecDepth 10000

namespace DeepResearch

/-- Text, modelled as a list of characters. -/
abbrev Str : Type := List Char

/-- Coerce a Lean string literal into the `Str` model. -/
def lit (s : String) : Str := s.data

/-- Python slice `l[:k]`: non-negative `k` keeps the first `k` elements
(clamped to the length); negative `k` drops the last `-k` elements
(clamped to the empty list). -/
def pytakeL {α : Type} (k : Int) (l : List α) : List α :=
  if 0 ≤ k then l.take k.toNat else l.take (l.length - (-k).toNat)

/-- Python slice `text[:k]` on strings. -/
def pytake (k : Int) (l : Str) : Str := pytakeL k l

/-- Model of `text.rfind("\n\n")`, scanning candidate start positions from
the right; `-1` when there is no occurrence (the value Python's `rfind`
returns). -/
def rfindGo (l : Str) : Nat → Int
  | 0 => -1
  | i + 1 => if (l.drop i).take 2 = ['\n', '\n'] then (i : Int) else rfindGo l i

/-- Model of `text.rfind("\n\n")` over the whole string. -/
def rfind2 (l : Str) : Int := rfindGo l l.length

/-- The default truncation suffix of `safe_truncate`. -/
def defaultSuffix : Str := lit "...\n[Content truncated due to size limits]"

/-- Function `safe_truncate(text, max_length, suffix)` from
`src/deep_research.py` (lines 56-66): return `text` unchanged when it is
empty or fits; otherwise look for the last paragraph break inside
`text[:max_length-50]` and cut there when that break sits beyond
`max_length // 2`, else hard-cut at `max_length`; in both cut cases the
suffix is appended. -/
def safe_truncate (text : Str) (max_length : Int) (sfx : Str) : Str :=
  if text = [] ∨ (text.length : Int) ≤ max_length then text
  else if max_length.fdiv 2 < rfind2 (pytake (max_length - 50) text) then
    pytake (rfind2 (pytake (max_length - 50) text)) text ++ lit "\n\n" ++ sfx
  else
    pytake max_length text ++ sfx

lemma fdiv_two (n : Int) : n.fdiv 2 = n / 2 := Int.fdiv_eq_ediv n (by norm_num)

lemma rfindGo_cases (l : Str) (k : Nat) :
    rfindGo l k = -1 ∨
      ∃ i : Nat, rfindGo l k = (i : Int) ∧ (l.drop i).take 2 = ['\n', '\n'] := by
  induction k with
  | zero => exact Or.inl rfl
  | succ i ih =>
    by_cases h : (l.drop i).take 2 = ['\n', '\n']
    · exact Or.inr ⟨i, by simp [rfindGo, h], h⟩
    · simpa [rfindGo, h] using ih

lemma break_pos_le {l : Str} {i : Nat}
    (h : (l.drop i).take 2 = ['\n', '\n']) : i + 2 ≤ l.length := by
  have hlen : ((l.drop i).take 2).length = 2 := by rw [h]; rfl
  rw [List.length_take, List.length_drop] at hlen
  omega

lemma length_pytake_nonneg {k : Int} (hk : 0 ≤ k) (l : Str) :
    (pytake k l).length = min k.toNat l.length := by
  simp [pytake, pytakeL, if_pos hk, List.length_take]

lemma pytake_nonneg {k : Int} (hk : 0 ≤ k) (l : Str) :
    pytake k l = l.take k.toNat := by
  simp [pytake, pytakeL, if_pos hk]

/-- The length of `defaultSuffix`. -/
lemma defaultSuffix_length : defaultSuffix.length = 42 := by decide

/-- C5 (amended): for `max_length ≥ 50` the output of `safe_truncate` never
exceeds `max_length` plus the length of the fixed truncation suffix.  (For
`max_length < 50` the claimed bound fails, see the counterexample.) -/
theorem safe_truncate_length_bound (text : Str) (n : Int) (h50 : 50 ≤ n) :
    ((safe_truncate text n defaultSuffix).length : Int) ≤ n + (defaultSuffix.length : Int) := by
  rw [defaultSuffix_length]
  by_cases h0 : text = [] ∨ (text.length : Int) ≤ n
  · rw [safe_truncate, if_pos h0]
    rcases h0 with h | h
    · subst h; simp; omega
    · omega
  · rw [safe_truncate, if_neg h0]
    push_neg at h0
    obtain ⟨-, hlen⟩ := h0
    set P := pytake (n - 50) text with hP
    have hPlen : P.length = (n - 50).toNat := by
      rw [hP, length_pytake_nonneg (by omega)]
      omega
    rcases rfindGo_cases P P.length with hneg | ⟨i, hi, hbr⟩
    · rw [show rfind2 P = -1 from hneg, if_neg (by rw [fdiv_two]; omega)]
      have := length_pytake_nonneg (show (0:Int) ≤ n by omega) text
      simp only [List.length_append, this, defaultSuffix_length]
      omega
    · have hle : i + 2 ≤ P.length := break_pos_le hbr
      rw [show rfind2 P = (i : Int) from hi]
      by_cases hbranch : n.fdiv 2 < (i : Int)
      · rw [if_pos hbranch]
        have := length_pytake_nonneg (show (0:Int) ≤ (i : Int) by omega) text
        simp only [List.length_append, this, defaultSuffix_length]
        have : (lit "\n\n").length = 2 := by decide
        rw [this]
        rw [fdiv_two] at hbranch
        omega
      · rw [if_neg hbranch]
        have := length_pytake_nonneg (show (0:Int) ≤ n by omega) text
        simp only [List.length_append, this, defaultSuffix_length]
        omega

/-- Witness for the amended C5 bound at a concrete input. -/
theorem safe_truncate_length_bound_witness :
    ((safe_truncate (lit "hello world, this is a moderately long sentence for the test, padding it beyond the maximum") 60 defaultSuffix).length : Int) ≤ 60 + (defaultSuffix.length : Int) :=
  safe_truncate_length_bound _ 60 (by norm_num)

/-- Counterexample to C5 as stated: with `max_length = 10` (which is `< 50`)
the Python slice `text[:max_length-50]` becomes a negative-index slice that
exposes a paragraph break far beyond `max_length`, so the result is longer
than `max_length + len(suffix)`. -/
theorem safe_truncate_length_cex :
    ¬ ((safe_truncate (List.replicate 20 'a' ++ lit "\n\n" ++ List.replicate 40 'c')
          10 defaultSuffix).length : Int) ≤ 10 + (defaultSuffix.length : Int) := by decide

/-- C4 (amended): `safe_truncate` is idempotent for every text whenever
`max_length ≥ 50`.  (For `max_length < 50` idempotence fails because the
slice `text[:max_length-50]` wraps around to a negative index, see the
counterexample.) -/
theorem safe_truncate_idem (text : Str) (n : Int) (h50 : 50 ≤ n) :
    safe_truncate (safe_truncate text n defaultSuffix) n defaultSuffix
      = safe_truncate text n defaultSuffix := by
  by_cases h0 : text = [] ∨ (text.length : Int) ≤ n
  · have hid : safe_truncate text n defaultSuffix = text := by
      rw [safe_truncate, if_pos h0]
    rw [hid, hid]
  · push_neg at h0
    obtain ⟨hne, hlen⟩ := h0
    have hcond : ¬ (text = [] ∨ (text.length : Int) ≤ n) := by
      push_neg; exact ⟨hne, hlen⟩
    have hPlen : (pytake (n - 50) text).length = (n - 50).toNat := by
      rw [length_pytake_nonneg (by omega)]; omega
    by_cases hbranch : n.fdiv 2 < rfind2 (pytake (n - 50) text)
    · -- paragraph-boundary branch: the break sits at most at `n - 52`, so the
      -- truncated result already fits within `n` and the second call is a no-op
      rcases rfindGo_cases (pytake (n - 50) text) (pytake (n - 50) text).length
        with hneg | ⟨i, hi, hbr⟩
      · rw [show rfind2 (pytake (n - 50) text) = -1 from hneg, fdiv_two] at hbranch
        omega
      · have hle : i + 2 ≤ (pytake (n - 50) text).length := break_pos_le hbr
        have hr : safe_truncate text n defaultSuffix
            = pytake (i : Int) text ++ lit "\n\n" ++ defaultSuffix := by
          rw [safe_truncate, if_neg hcond, if_pos hbranch,
            show rfind2 (pytake (n - 50) text) = (i : Int) from hi]
        have hsmall : ((pytake (i : Int) text ++ lit "\n\n" ++ defaultSuffix).length : Int) ≤ n := by
          have := length_pytake_nonneg (show (0:Int) ≤ (i : Int) by omega) text
          simp only [List.length_append, this, defaultSuffix_length]
          have h2 : (lit "\n\n").length = 2 := by decide
          rw [h2]
          omega
        rw [hr, safe_truncate, if_pos (Or.inr hsmall)]
    · -- hard-cut branch: the second call sees the same prefix, finds the same
      -- (absent or early) break, and hard-cuts at the same place
      have hr : safe_truncate text n defaultSuffix = pytake n text ++ defaultSuffix := by
        rw [safe_truncate, if_neg hcond, if_neg hbranch]
      have htklen : (pytake n text).length = n.toNat := by
        rw [length_pytake_nonneg (by omega)]; omega
      have hrlen : ((pytake n text ++ defaultSuffix).length : Int) = n + 42 := by
        simp only [List.length_append, htklen, defaultSuffix_length]
        omega
      have hcond2 : ¬ (pytake n text ++ defaultSuffix = []
          ∨ ((pytake n text ++ defaultSuffix).length : Int) ≤ n) := by
        push_neg
        constructor
        · intro hnil
          have : ((pytake n text ++ defaultSuffix).length : Int) = 0 := by
            rw [hnil]; rfl
          omega
        · omega
      have hPsame : pytake (n - 50) (pytake n text ++ defaultSuffix) = pytake (n - 50) text := by
        rw [pytake_nonneg (show (0:Int) ≤ n - 50 by omega),
          pytake_nonneg (show (0:Int) ≤ n - 50 by omega),
          pytake_nonneg (show (0:Int) ≤ n by omega)]
        rw [List.take_append_of_le_length (by rw [List.length_take]; omega)]
        rw [List.take_take]
        congr 1
        omega
      have htkr : pytake n (pytake n text ++ defaultSuffix) = pytake n text := by
        rw [pytake_nonneg (show (0:Int) ≤ n by omega)]
        rw [List.take_append_of_le_length (by rw [htklen])]
        rw [pytake_nonneg (show (0:Int) ≤ n by omega), List.take_take]
        congr 1
        omega
      rw [hr, safe_truncate, if_neg hcond2, hPsame, if_neg hbranch, htkr]

/-- Witness for the amended C4 idempotence at a concrete input. -/
theorem safe_truncate_idem_witness :
    safe_truncate (safe_truncate (lit "a short paragraph\n\nand another somewhat longer paragraph to push the text well past the cutoff") 60 defaultSuffix) 60 defaultSuffix
      = safe_truncate (lit "a short paragraph\n\nand another somewhat longer paragraph to push the text well past the cutoff") 60 defaultSuffix :=
  safe_truncate_idem _ 60 (by norm_num)

/-- Counterexample to C4 as stated: with `max_length = 20` the first call
hard-cuts (the wrapped-around slice `text[:-30]` is empty), but the second
call sees the paragraph break that the first cut re-exposed inside
`result[:-30]` and cuts there instead, so the two results differ. -/
theorem safe_truncate_idem_cex :
    safe_truncate (safe_truncate (List.replicate 15 'a' ++ lit "\n\n" ++ List.replicate 13 'c')
        20 defaultSuffix) 20 defaultSuffix
      ≠ safe_truncate (List.replicate 15 'a' ++ lit "\n\n" ++ List.replicate 13 'c')
        20 defaultSuffix := by decide

/-! ## Shared text helpers for the adapters and the orchestrator -/

/-- Decimal rendering of a natural number, as Python's string interpolation
produces for the non-negative integers used by the program. -/
def natStr (n : Nat) : Str := (Nat.repr n).data

/-- Python `str.lower()` (ASCII case folding; the program only compares
against ASCII keywords). -/
def pyLower (s : Str) : Str := s.map Char.toLower

/-- Python `str.strip()` (whitespace trimmed from both ends). -/
def pyStrip (s : Str) : Str :=
  ((s.dropWhile Char.isWhitespace).reverse.dropWhile Char.isWhitespace).reverse

/-- One attempt of the regex fragment `https?://[^\s]+` at the current
position: the scheme (with the optional `s`, including the backtracking
case where `https` fails but `http` cannot recover) followed by a
non-empty run of non-whitespace characters.  Returns the captured text and
the remainder after the match. -/
def matchSchemeUrl (l : Str) : Option (Str × Str) :=
  if (lit "https://").isPrefixOf l then
    if (l.drop 8).takeWhile (fun c => ¬ c.isWhitespace) = [] then none
    else some (lit "https://" ++ (l.drop 8).takeWhile (fun c => ¬ c.isWhitespace),
      (l.drop 8).dropWhile (fun c => ¬ c.isWhitespace))
  else if (lit "http://").isPrefixOf l then
    if (l.drop 7).takeWhile (fun c => ¬ c.isWhitespace) = [] then none
    else some (lit "http://" ++ (l.drop 7).takeWhile (fun c => ¬ c.isWhitespace),
      (l.drop 7).dropWhile (fun c => ¬ c.isWhitespace))
  else none

/-- Model of `re.findall(r"URL: (https?://[^\s]+)", text)`: scan left to
right for `URL: ` followed by a URL, collect the captured group of each
non-overlapping match and resume after it.  The fuel argument (initially
the text length, an upper bound on the number of scan steps, each of which
consumes at least one character) keeps the recursion structural. -/
def findUrlsGo : Nat → Str → List Str
  | 0, _ => []
  | _, [] => []
  | fuel + 1, l@(_ :: tl) =>
    if (lit "URL: ").isPrefixOf l then
      match matchSchemeUrl (l.drop 5) with
      | some (u, rest) => u :: findUrlsGo fuel rest
      | none => findUrlsGo fuel tl
    else findUrlsGo fuel tl

/-- URL extraction from a rendered adapter text block (`deep_research`
lines 103 and 115). -/
def findUrls (l : Str) : List Str := findUrlsGo l.length l

/-- Model of `re.search(r"Title: (.+?)\n", page)` (`deep_research` line
149): the first position where `Title: ` is followed by at least one
non-newline character and then a newline; the lazily captured group runs to
that first newline. -/
def reSearchTitleGo : Str → Option Str
  | [] => none
  | l@(_ :: tl) =>
    if (lit "Title: ").isPrefixOf l then
      if (l.drop 7).takeWhile (fun c => c ≠ '\n') ≠ []
          ∧ ((l.drop 7).takeWhile (fun c => c ≠ '\n')).length < (l.drop 7).length then
        some ((l.drop 7).takeWhile (fun c => c ≠ '\n'))
      else reSearchTitleGo tl
    else reSearchTitleGo tl

/-- Python `try/except Exception` around an `Except`-valued computation:
an `.error` value models a raised exception carrying its rendered
message. -/
def exTry {α : Type} (m : Except Str α) (h : Str → Except Str α) : Except Str α :=
  match m with
  | .ok a => .ok a
  | .error e => h e

/-! ## The orchestrator `deep_research` (lines 69-182)

The two adapter calls and the link extractor are the orchestrator's only
effectful dependencies; they enter the model as `Except`-valued inputs
(`webO`, `acadO`, `follow`), whose `.error` case models the call raising. -/

/-- Input clamp `num_results > MAX_RESULTS -> MAX_RESULTS` (line 84). -/
def normNum (n : Int) : Int := if 3 < n then 3 else n

/-- Input normalization of `sources` (lines 87-89): lowercase, strip, and
default to `both` for unrecognized values. -/
def normSources (s : Str) : Str :=
  if pyStrip (pyLower s) ∈ [lit "web", lit "academic", lit "both"] then pyStrip (pyLower s)
  else lit "both"

/-- Rendered web block on adapter success (line 102). -/
def webResultsBlock (t : Str) : Str := lit "WEB SEARCH RESULTS:\n" ++ t ++ lit "\n\n"

/-- Error line recorded when the web adapter raises (line 107). -/
def webErrLine (e : Str) : Str := lit "WEB SEARCH ERROR: " ++ e.take 100 ++ lit "\n\n"

/-- Rendered academic block on adapter success (line 114). -/
def acadResultsBlock (t : Str) : Str := lit "ACADEMIC SEARCH RESULTS:\n" ++ t ++ lit "\n\n"

/-- Error line recorded when the academic adapter raises (line 119). -/
def acadErrLine (e : Str) : Str := lit "ACADEMIC SEARCH ERROR: " ++ e.take 100 ++ lit "\n\n"

/-- The web-search phase of `deep_research` (lines 98-107): when web
sources are requested, the adapter call runs inside its own try/except;
success appends the rendered block and re-derives up to `num_results` URLs
from the rendered text, failure appends an error line and leaves the URL
list empty. -/
def webSectionE (n : Int) (src : Str) (webO : Except Str Str) : Except Str (Str × List Str) :=
  if src = lit "web" ∨ src = lit "both" then
    exTry (Except.map (fun t => (webResultsBlock t, pytakeL n (findUrls t))) webO)
      (fun e => .ok (webErrLine e, []))
  else .ok ([], [])

/-- The academic-search phase of `deep_research` (lines 110-119). -/
def acadSectionE (n : Int) (src : Str) (acadO : Except Str Str) : Except Str (Str × List Str) :=
  if src = lit "academic" ∨ src = lit "both" then
    exTry (Except.map (fun t => (acadResultsBlock t, pytakeL n (findUrls t))) acadO)
      (fun e => .ok (acadErrLine e, []))
  else .ok ([], [])

/-- The text the web phase appends to the report. -/
def webTextOf (src : Str) (webO : Except Str Str) : Str :=
  if src = lit "web" ∨ src = lit "both" then
    match webO with
    | .ok t => webResultsBlock t
    | .error e => webErrLine e
  else []

/-- The web URL list the web phase produces. -/
def webUrlsOf (n : Int) (src : Str) (webO : Except Str Str) : List Str :=
  if src = lit "web" ∨ src = lit "both" then
    match webO with
    | .ok t => pytakeL n (findUrls t)
    | .error _ => []
  else []

/-- The text the academic phase appends to the report. -/
def acadTextOf (src : Str) (acadO : Except Str Str) : Str :=
  if src = lit "academic" ∨ src = lit "both" then
    match acadO with
    | .ok t => acadResultsBlock t
    | .error e => acadErrLine e
  else []

/-- The academic URL list the academic phase produces. -/
def acadUrlsOf (n : Int) (src : Str) (acadO : Except Str Str) : List Str :=
  if src = lit "academic" ∨ src = lit "both" then
    match acadO with
    | .ok t => pytakeL n (findUrls t)
    | .error _ => []
  else []

lemma webSectionE_eq (n : Int) (src : Str) (webO : Except Str Str) :
    webSectionE n src webO = .ok (webTextOf src webO, webUrlsOf n src webO) := by
  cases webO <;>
    by_cases h : src = lit "web" ∨ src = lit "both" <;>
      simp [webSectionE, webTextOf, webUrlsOf, exTry, Except.map, h]

lemma acadSectionE_eq (n : Int) (src : Str) (acadO : Except Str Str) :
    acadSectionE n src acadO = .ok (acadTextOf src acadO, acadUrlsOf n src acadO) := by
  cases acadO <;>
    by_cases h : src = lit "academic" ∨ src = lit "both" <;>
      simp [acadSectionE, acadTextOf, acadUrlsOf, exTry, Except.map, h]

/-- One round of the URL-interleaving loop body (lines 128-132): at index
`i`, take the `i`-th web URL when it exists, then the `i`-th academic URL
when it exists. -/
def interleaveStep (webUrls acadUrls : List Str) (i : Nat) : List (Str × Str) :=
  (if i < webUrls.length then [(lit "web", webUrls.getD i [])] else []) ++
  (if i < acadUrls.length then [(lit "academic", acadUrls.getD i [])] else [])

/-- The `for i in range(max(len(web_urls), len(academic_urls)))` loop of
`deep_research` (lines 127-132): the concatenation of the per-round
contributions, in loop order. -/
def combineBothRaw (webUrls acadUrls : List Str) : List (Str × Str) :=
  (List.range (max webUrls.length acadUrls.length)).flatMap (interleaveStep webUrls acadUrls)

/-- URL combination (lines 126-138): interleave and cap for `both`, else
tag and cap the single requested list. -/
def combinedUrls (src : Str) (n : Int) (webUrls acadUrls : List Str) : List (Str × Str) :=
  if src = lit "both" then pytakeL n (combineBothRaw webUrls acadUrls)
  else if src = lit "web" then (pytakeL n webUrls).map (fun u => (lit "web", u))
  else (pytakeL n acadUrls).map (fun u => (lit "academic", u))

/-- Separator line `"=" * 40`. -/
def sepLine : Str := List.replicate 40 '='

/-- The per-URL loop of `deep_research` (lines 143-160): each URL is
followed inside its own try/except; success appends a delimited
`SOURCE i` block with the extracted title and the page content, failure
appends an `Error following URL` block with the truncated message. -/
def sourceBlocks (follow : Str → Except Str Str) : Nat → List (Str × Str) → Str
  | _, [] => []
  | i, (st, url) :: rest =>
    (match follow url with
     | .ok page =>
       sepLine ++ lit "\nSOURCE " ++ natStr i ++ lit " (" ++ st ++ lit "): "
         ++ (match reSearchTitleGo page with
             | some t => t
             | none => lit "Source " ++ natStr i)
         ++ lit "\n" ++ sepLine ++ lit "\n\n" ++ page ++ lit "\n\n"
     | .error e =>
       sepLine ++ lit "\nSOURCE " ++ natStr i ++ lit " (" ++ st ++ lit "): Error following URL\n"
         ++ sepLine ++ lit "\n" ++ lit "Error: " ++ e.take 100 ++ lit "\n\n")
    ++ sourceBlocks follow (i + 1) rest

/-- Report header (lines 93-95). -/
def introOf (q src : Str) : Str :=
  lit "Research Query: " ++ q ++ lit "\n\n" ++ lit "Searching "
    ++ (if src = lit "both" then lit "web and academic sources" else src ++ lit " sources")
    ++ lit "...\n\n"

/-- The early-return sentence of line 123. -/
def noValidMsg : Str := lit "No valid search results found. Please try a different query."

/-- Detail-section header (line 141). -/
def detailHeader (cnt : Nat) : Str :=
  lit "DETAILED CONTENT FROM TOP " ++ natStr cnt ++ lit " SOURCES:\n\n"

/-- The fixed last line of the summary footer. -/
def summaryTail : Str :=
  lit "The information above represents the most relevant content found on this topic.\n"

/-- Summary footer (lines 164-168). -/
def summaryOf (q src : Str) (cnt : Nat) : Str :=
  lit "\nRESEARCH SUMMARY:\n" ++ lit "Completed research on: " ++ q ++ lit "\n"
    ++ lit "Examined " ++ natStr cnt ++ lit " sources from "
    ++ (if src = lit "both" then lit "web and academic databases" else src ++ lit " sources")
    ++ lit "\n" ++ summaryTail

/-- The report text assembled before the size check, in the path where some
URL was found (header, adapter blocks, detail header, per-URL blocks). -/
def drBody (q src : Str) (n : Int) (wtxt atxt : Str) (wurls aurls : List Str)
    (follow : Str → Except Str Str) : Str :=
  introOf q src ++ wtxt ++ atxt ++ detailHeader (combinedUrls src n wurls aurls).length
    ++ sourceBlocks follow 1 (combinedUrls src n wurls aurls)

/-- The body budget `MAX_CONTENT_SIZE - len(summary) - 50` (line 171). -/
def drMaxSize (q src : Str) (n : Int) (wurls aurls : List Str) : Int :=
  8000 - ((summaryOf q src (combinedUrls src n wurls aurls).length).length : Int) - 50

/-- Everything `deep_research` does after the two adapter phases (lines
121-178): the early return when both URL lists are empty, otherwise the
per-URL loop, the size budgeting of the body, and the summary footer
appended after truncation. -/
def drReport (q src : Str) (n : Int) (wtxt atxt : Str) (wurls aurls : List Str)
    (follow : Str → Except Str Str) : Str :=
  if wurls = [] ∧ aurls = [] then
    introOf q src ++ wtxt ++ atxt ++ noValidMsg
  else
    (if drMaxSize q src n wurls aurls < ((drBody q src n wtxt atxt wurls aurls follow).length : Int)
     then safe_truncate (drBody q src n wtxt atxt wurls aurls follow)
       (drMaxSize q src n wurls aurls) defaultSuffix
     else drBody q src n wtxt atxt wurls aurls follow)
    ++ summaryOf q src (combinedUrls src n wurls aurls).length

/-- The body of `deep_research`'s top-level `try` block: normalize the
inputs, run the two adapter phases (each with its own inner catch), then
assemble the report.  An `.error` value models an exception escaping the
`try` block. -/
def drTryBlock (q src0 : Str) (n0 : Int) (webO acadO : Except Str Str)
    (follow : Str → Except Str Str) : Except Str Str :=
  match webSectionE (normNum n0) (normSources src0) webO with
  | .error e => .error e
  | .ok (wtxt, wurls) =>
    match acadSectionE (normNum n0) (normSources src0) acadO with
    | .error e => .error e
    | .ok (atxt, aurls) =>
      .ok (drReport q (normSources src0) (normNum n0) wtxt atxt wurls aurls follow)

/-- The tool `deep_research` itself (lines 69-182): the `try` body guarded
by the top-level `except Exception` clause, which converts any escaping
error into the `Research error:` string (line 182). -/
def deep_research (q src0 : Str) (n0 : Int) (webO acadO : Except Str Str)
    (follow : Str → Except Str Str) : Except Str Str :=
  exTry (drTryBlock q src0 n0 webO acadO follow)
    (fun e => .ok (lit "Research error: " ++ e.take 200))

lemma drTryBlock_eq (q src0 : Str) (n0 : Int) (webO acadO : Except Str Str)
    (follow : Str → Except Str Str) :
    drTryBlock q src0 n0 webO acadO follow
      = .ok (drReport q (normSources src0) (normNum n0)
          (webTextOf (normSources src0) webO) (acadTextOf (normSources src0) acadO)
          (webUrlsOf (normNum n0) (normSources src0) webO)
          (acadUrlsOf (normNum n0) (normSources src0) acadO) follow) := by
  rw [drTryBlock, webSectionE_eq, acadSectionE_eq]

lemma deep_research_eq (q src0 : Str) (n0 : Int) (webO acadO : Except Str Str)
    (follow : Str → Except Str Str) :
    deep_research q src0 n0 webO acadO follow
      = .ok (drReport q (normSources src0) (normNum n0)
          (webTextOf (normSources src0) webO) (acadTextOf (normSources src0) acadO)
          (webUrlsOf (normNum n0) (normSources src0) webO)
          (acadUrlsOf (normNum n0) (normSources src0) acadO) follow) := by
  rw [deep_research, drTryBlock_eq]
  rfl

/-- Modelled from the spec's words (refinement reference for C1): alternate
one URL from the web list and one from the academic list per round, web
first each round, until both lists are exhausted. -/
def roundRobinSpec : List Str → List Str → List (Str × Str)
  | [], [] => []
  | [], a :: as2 => (lit "academic", a) :: roundRobinSpec [] as2
  | w :: ws, [] => (lit "web", w) :: roundRobinSpec ws []
  | w :: ws, a :: as2 => (lit "web", w) :: (lit "academic", a) :: roundRobinSpec ws as2

lemma range_flatMap_succ {α : Type} (n : Nat) (f : Nat → List α) :
    (List.range (n + 1)).flatMap f = f 0 ++ (List.range n).flatMap (fun i => f (i + 1)) := by
  rw [List.range_succ_eq_map, List.flatMap_cons, List.flatMap_map]

lemma interleaveStep_succ_cons_cons (w a : Str) (ws as2 : List Str) (i : Nat) :
    interleaveStep (w :: ws) (a :: as2) (i + 1) = interleaveStep ws as2 i := by
  simp [interleaveStep, Nat.succ_lt_succ_iff]

lemma interleaveStep_succ_nil_cons (a : Str) (as2 : List Str) (i : Nat) :
    interleaveStep [] (a :: as2) (i + 1) = interleaveStep [] as2 i := by
  simp [interleaveStep, Nat.succ_lt_succ_iff]

lemma interleaveStep_succ_cons_nil (w : Str) (ws : List Str) (i : Nat) :
    interleaveStep (w :: ws) [] (i + 1) = interleaveStep ws [] i := by
  simp [interleaveStep, Nat.succ_lt_succ_iff]

lemma combineBothRaw_nil_cons (a : Str) (as2 : List Str) :
    combineBothRaw [] (a :: as2) = (lit "academic", a) :: combineBothRaw [] as2 := by
  rw [combineBothRaw, combineBothRaw]
  rw [show max ([] : List Str).length (a :: as2).length = max ([] : List Str).length as2.length + 1
    by simp]
  rw [range_flatMap_succ]
  rw [show (fun i => interleaveStep [] (a :: as2) (i + 1)) = interleaveStep [] as2
    from funext (interleaveStep_succ_nil_cons a as2)]
  simp [interleaveStep]

lemma combineBothRaw_cons_nil (w : Str) (ws : List Str) :
    combineBothRaw (w :: ws) [] = (lit "web", w) :: combineBothRaw ws [] := by
  rw [combineBothRaw, combineBothRaw]
  rw [show max (w :: ws).length ([] : List Str).length = max ws.length ([] : List Str).length + 1
    by simp]
  rw [range_flatMap_succ]
  rw [show (fun i => interleaveStep (w :: ws) [] (i + 1)) = interleaveStep ws []
    from funext (interleaveStep_succ_cons_nil w ws)]
  simp [interleaveStep]

lemma combineBothRaw_cons_cons (w a : Str) (ws as2 : List Str) :
    combineBothRaw (w :: ws) (a :: as2)
      = (lit "web", w) :: (lit "academic", a) :: combineBothRaw ws as2 := by
  rw [combineBothRaw, combineBothRaw]
  rw [show max (w :: ws).length (a :: as2).length = max ws.length as2.length + 1 by
    simp only [List.length_cons]; omega]
  rw [range_flatMap_succ]
  rw [show (fun i => interleaveStep (w :: ws) (a :: as2) (i + 1)) = interleaveStep ws as2
    from funext (interleaveStep_succ_cons_cons w a ws as2)]
  simp [interleaveStep]

/-- The source's index-driven interleaving loop produces exactly the
round-robin merge described by the spec. -/
theorem combineBothRaw_eq_roundRobin (webUrls acadUrls : List Str) :
    combineBothRaw webUrls acadUrls = roundRobinSpec webUrls acadUrls := by
  induction webUrls generalizing acadUrls with
  | nil =>
    induction acadUrls with
    | nil => simp [combineBothRaw, roundRobinSpec]
    | cons a as2 ih => rw [combineBothRaw_nil_cons, ih, roundRobinSpec]
  | cons w ws ih =>
    cases acadUrls with
    | nil =>
      rw [combineBothRaw_cons_nil, ih [], roundRobinSpec]
    | cons a as2 =>
      rw [combineBothRaw_cons_cons, ih as2, roundRobinSpec]

/-- C1: with `sources == "both"` the combined extraction order is the
round-robin interleaving of the web and academic URL lists (web first each
round, until both are exhausted) capped to `num_results`; in particular for
web `[w1,w2,w3]`, academic `[a1,a2]`, `num_results = 3` the combined list
is `[(web,w1),(academic,a1),(web,w2)]`. -/
theorem combinedUrls_both_spec :
    (∀ (webUrls acadUrls : List Str) (n : Int),
        combinedUrls (lit "both") n webUrls acadUrls
          = pytakeL n (roundRobinSpec webUrls acadUrls))
    ∧ combinedUrls (lit "both") 3 [lit "w1", lit "w2", lit "w3"] [lit "a1", lit "a2"]
        = [(lit "web", lit "w1"), (lit "academic", lit "a1"), (lit "web", lit "w2")] := by
  constructor
  · intro webUrls acadUrls n
    rw [combinedUrls, if_pos rfl, combineBothRaw_eq_roundRobin]
  · decide

/-- C2: for every input and every behaviour of the adapters and the link
extractor (including raised errors), `deep_research` returns a string and
never raises; any error escaping the `try` body would be converted into
the `Research error:` line with the message truncated to 200 characters. -/
theorem deep_research_never_raises (q src0 : Str) (n0 : Int) (webO acadO : Except Str Str)
    (follow : Str → Except Str Str) :
    (∃ s : Str, deep_research q src0 n0 webO acadO follow = .ok s)
    ∧ (∀ e : Str, drTryBlock q src0 n0 webO acadO follow = .error e →
        deep_research q src0 n0 webO acadO follow
          = .ok (lit "Research error: " ++ e.take 200)) := by
  constructor
  · exact ⟨_, deep_research_eq q src0 n0 webO acadO follow⟩
  · intro e he
    rw [deep_research, he]
    rfl

/-- Witness: C2 instantiated with both adapters and the extractor raising. -/
theorem deep_research_never_raises_witness :
    ∃ s : Str, deep_research (lit "q") (lit "web") 2 (.error (lit "boom"))
        (.error (lit "bam")) (fun _ => .error []) = .ok s :=
  (deep_research_never_raises (lit "q") (lit "web") 2 (.error (lit "boom"))
    (.error (lit "bam")) (fun _ => .error [])).1

/-- C9: when both derived URL lists are empty, `deep_research` returns the
partial report ending in the `No valid search results` sentence and never
consults the link extractor (the result is independent of `follow`); in
every other case the report instead ends with the summary footer, so this
is the sole early-return path. -/
theorem deep_research_no_results (q src0 : Str) (n0 : Int) (webO acadO : Except Str Str)
    (follow follow2 : Str → Except Str Str) :
    (webUrlsOf (normNum n0) (normSources src0) webO = [] →
      acadUrlsOf (normNum n0) (normSources src0) acadO = [] →
        deep_research q src0 n0 webO acadO follow
          = .ok (introOf q (normSources src0)
              ++ webTextOf (normSources src0) webO
              ++ acadTextOf (normSources src0) acadO
              ++ noValidMsg)
        ∧ deep_research q src0 n0 webO acadO follow
            = deep_research q src0 n0 webO acadO follow2)
    ∧ (¬ (webUrlsOf (normNum n0) (normSources src0) webO = []
          ∧ acadUrlsOf (normNum n0) (normSources src0) acadO = []) →
        ∃ body : Str,
          deep_research q src0 n0 webO acadO follow
            = .ok (body ++ summaryOf q (normSources src0)
                (combinedUrls (normSources src0) (normNum n0)
                  (webUrlsOf (normNum n0) (normSources src0) webO)
                  (acadUrlsOf (normNum n0) (normSources src0) acadO)).length)) := by
  constructor
  · intro hw ha
    have h1 : deep_research q src0 n0 webO acadO follow
        = .ok (introOf q (normSources src0) ++ webTextOf (normSources src0) webO
            ++ acadTextOf (normSources src0) acadO ++ noValidMsg) := by
      rw [deep_research_eq, drReport, if_pos ⟨hw, ha⟩]
    have h2 : deep_research q src0 n0 webO acadO follow2
        = .ok (introOf q (normSources src0) ++ webTextOf (normSources src0) webO
            ++ acadTextOf (normSources src0) acadO ++ noValidMsg) := by
      rw [deep_research_eq, drReport, if_pos ⟨hw, ha⟩]
    exact ⟨h1, h1.trans h2.symm⟩
  · intro hne
    rw [deep_research_eq, drReport, if_neg hne]
    exact ⟨_, rfl⟩

/-- Witness: C9 instantiated where the web adapter raised and the academic
adapter returned its `no results` sentence (no `URL: ` lines), under two
different extractor behaviours. -/
theorem deep_research_no_results_witness :
    deep_research (lit "quantum") (lit "both") 2 (.error (lit "x"))
        (.ok (lit "No academic results found. Try refining your search."))
        (fun _ => .ok (lit "page"))
      = deep_research (lit "quantum") (lit "both") 2 (.error (lit "x"))
        (.ok (lit "No academic results found. Try refining your search."))
        (fun _ => .error (lit "nope")) :=
  ((deep_research_no_results (lit "quantum") (lit "both") 2 (.error (lit "x"))
      (.ok (lit "No academic results found. Try refining your search."))
      (fun _ => .ok (lit "page")) (fun _ => .error (lit "nope"))).1
    (by decide) (by decide)).2

/-! ## The web adapter `_web_search` (lines 184-248)

The HTTP fetch is an `Except`-valued input; on success it carries the
response status and the parsed `.result` blocks of the response markup
(BeautifulSoup is abstracted into the pre-parsed block list).  The
`urllib.parse.unquote` URL-decoder is an oracle parameter. -/

/-- One parsed `.result` block: the optional `.result__title a` element as
(text, href attribute with default empty), and the optional
`.result__snippet` text. -/
structure RBlock where
  titleLink : Option (Str × Str)
  snippet : Option Str
  deriving DecidableEq

/-- An HTTP response from the search engine: status code and parsed result
blocks. -/
structure WebResp where
  status : Nat
  blocks : List RBlock
  deriving DecidableEq

/-- One normalized web search hit (lines 231-235). -/
structure WebItem where
  title : Str
  url : Str
  snippet : Str
  deriving DecidableEq

/-- Model of `re.search(r"uddg=([^&]+)", href)` (line 222): the first
position where `uddg=` is followed by at least one non-`&` character; the
greedy group runs to the next `&` or the end. -/
def uddgGo : Str → Option Str
  | [] => none
  | l@(_ :: tl) =>
    if (lit "uddg=").isPrefixOf l then
      if (l.drop 5).takeWhile (fun c => c ≠ '&') = [] then uddgGo tl
      else some ((l.drop 5).takeWhile (fun c => c ≠ '&'))
    else uddgGo tl

/-- Redirect unwrapping (lines 221-224): when the href mentions
`duckduckgo.com`, replace it by the URL-decoded `uddg` parameter when one
is found. -/
def unwrapHref (unquote : Str → Str) (href : Str) : Str :=
  if lit "duckduckgo.com" <:+: href then
    match uddgGo href with
    | some v => unquote v
    | none => href
  else href

/-- The result-block loop of `_web_search` (lines 208-235): stop once
`num_results` hits were collected, skip blocks without a title link,
normalize and cap each field. -/
def webLoop (unquote : Str → Str) (n : Int) : Nat → List RBlock → List WebItem
  | _, [] => []
  | cnt, b :: rest =>
    if n ≤ (cnt : Int) then []
    else
      match b.titleLink with
      | none => webLoop unquote n cnt rest
      | some (t, href) =>
        { title := (pyStrip t).take 100
          url := (unwrapHref unquote href).take 150
          snippet := (match b.snippet with
                      | some s => pyStrip s
                      | none => lit "No snippet available").take 200 }
          :: webLoop unquote n (cnt + 1) rest

/-- Numbered-list rendering of web hits (lines 239-242). -/
def formatWebItems : Nat → List WebItem → Str
  | _, [] => []
  | i, it :: rest =>
    natStr i ++ lit ". " ++ it.title ++ lit "\n   URL: " ++ it.url ++ lit "\n   "
      ++ it.snippet ++ lit "\n\n" ++ formatWebItems (i + 1) rest

/-- Function `_web_search` (lines 184-248; the leading underscore is not a
valid Lean name prefix here, so the name drops it): a transport failure or
a `raise_for_status()` failure propagates as an error (the inner
`except ... raise` re-raises); `httpx.Response.raise_for_status` raises
exactly for a status outside the 2xx range, with a message produced by the
library (the `httpErrMsg` oracle).  Otherwise the parsed blocks are
rendered, with a fixed sentence for zero hits. -/
def web_search (query : Str) (n : Int) (unquote : Str → Str)
    (fetch : Except Str WebResp) (httpErrMsg : Nat → Str) : Except Str Str :=
  match fetch with
  | .error e => .error e
  | .ok resp =>
    if resp.status < 200 ∨ 300 ≤ resp.status then
      .error (httpErrMsg resp.status)
    else if webLoop unquote n 0 resp.blocks = [] then
      .ok (lit "No web results found for: " ++ query)
    else
      .ok (lit "Web search results for: " ++ query ++ lit "\n\n"
        ++ formatWebItems 1 (webLoop unquote n 0 resp.blocks))

/-- C6 (amended): `_web_search` raises exactly when the final response
status falls outside the 2xx range (this is `httpx`'s `raise_for_status`,
not a non-200 check); the orchestrator catches the raised error in the web
phase, records the `WEB SEARCH ERROR:` line with the message truncated to
100 characters, leaves the web URL list empty, and the returned report
contains that line whenever the early return fires or the assembled body
fits the size budget (otherwise the final truncation may cut it). -/
theorem web_search_error_handling :
    (∀ (query : Str) (n : Int) (unquote : Str → Str) (resp : WebResp) (msgf : Nat → Str),
        resp.status < 200 ∨ 300 ≤ resp.status →
          web_search query n unquote (.ok resp) msgf = .error (msgf resp.status))
    ∧ (∀ (n : Int) (src e : Str),
        src = lit "web" ∨ src = lit "both" →
          webSectionE n src (.error e) = .ok (webErrLine e, [])
          ∧ webUrlsOf n src (.error e) = []
          ∧ webTextOf src (.error e) = webErrLine e)
    ∧ (∀ (q src0 : Str) (n0 : Int) (e : Str) (acadO : Except Str Str)
        (follow : Str → Except Str Str),
        (normSources src0 = lit "web" ∨ normSources src0 = lit "both") →
        (acadUrlsOf (normNum n0) (normSources src0) acadO = []
          ∨ ((drBody q (normSources src0) (normNum n0) (webErrLine e)
                (acadTextOf (normSources src0) acadO) []
                (acadUrlsOf (normNum n0) (normSources src0) acadO) follow).length : Int)
              ≤ drMaxSize q (normSources src0) (normNum n0) []
                  (acadUrlsOf (normNum n0) (normSources src0) acadO)) →
          ∃ s : Str,
            deep_research q src0 n0 (.error e) acadO follow = .ok s
            ∧ webErrLine e <:+: s) := by
  refine ⟨?_, ?_, ?_⟩
  · intro query n unquote resp msgf hst
    rw [web_search, if_pos hst]
  · intro n src e hsrc
    refine ⟨?_, ?_, ?_⟩
    · rw [webSectionE, if_pos hsrc]; rfl
    · rw [webUrlsOf, if_pos hsrc]
    · rw [webTextOf, if_pos hsrc]
  · intro q src0 n0 e acadO follow hsrc hcase
    have hwt : webTextOf (normSources src0) (.error e) = webErrLine e := by
      rw [webTextOf, if_pos hsrc]
    have hwu : webUrlsOf (normNum n0) (normSources src0) (.error e) = [] := by
      rw [webUrlsOf, if_pos hsrc]
    rw [deep_research_eq, hwt, hwu]
    rcases hcase with hae | hfits
    · rw [drReport, if_pos ⟨rfl, hae⟩]
      exact ⟨_, rfl, ⟨introOf q (normSources src0),
        acadTextOf (normSources src0) acadO ++ noValidMsg, by simp⟩⟩
    · by_cases hae : acadUrlsOf (normNum n0) (normSources src0) acadO = []
      · rw [drReport, if_pos ⟨rfl, hae⟩]
        exact ⟨_, rfl, ⟨introOf q (normSources src0),
          acadTextOf (normSources src0) acadO ++ noValidMsg, by simp⟩⟩
      · rw [drReport, if_neg (by simp [hae])]
        rw [if_neg (by omega)]
        refine ⟨_, rfl, ?_⟩
        refine ⟨introOf q (normSources src0),
          acadTextOf (normSources src0) acadO
            ++ detailHeader (combinedUrls (normSources src0) (normNum n0) []
                (acadUrlsOf (normNum n0) (normSources src0) acadO)).length
            ++ sourceBlocks follow 1 (combinedUrls (normSources src0) (normNum n0) []
                (acadUrlsOf (normNum n0) (normSources src0) acadO))
            ++ summaryOf q (normSources src0) (combinedUrls (normSources src0) (normNum n0) []
                (acadUrlsOf (normNum n0) (normSources src0) acadO)).length, ?_⟩
        rw [drBody]
        simp [List.append_assoc]

/-- Witness: the amended C6 at a concrete 404 response. -/
theorem web_search_error_handling_witness :
    web_search (lit "q") 2 (fun s => s) (.ok ⟨404, []⟩) (fun st => lit "status " ++ natStr st)
      = .error (lit "status " ++ natStr 404) :=
  web_search_error_handling.1 (lit "q") 2 (fun s => s) ⟨404, []⟩
    (fun st => lit "status " ++ natStr st) (by norm_num)

/-- Counterexample to C6 as stated: a 204 response has a non-200 status,
yet `raise_for_status()` accepts it (it is a success status), so
`_web_search` returns text (here the fixed `no results` sentence for an
empty block list) instead of raising. -/
theorem web_search_status_cex :
    web_search (lit "q") 2 (fun s => s) (.ok ⟨204, []⟩) (fun _ => lit "err")
        = .ok (lit "No web results found for: q")
      ∧ (204 : Nat) ≠ 200 := by
  constructor
  · rfl
  · decide

/-! ## The academic adapter `_academic_search` (lines 250-316)

The HTTP fetch is an `Except`-valued input; a successful response carries
the status code and the JSON decoding outcome (`.error` models
`response.json()` raising on a malformed body; a missing or empty `data`
field is the empty paper list).  A paper's fields mirror
`paper.get(...)` with its defaults: `none` models an absent key; an
author entry is the author's name with the empty string for an absent or
empty `name` (both are falsy in the filter on line 279). -/

/-- One paper record from the metadata API. -/
structure Paper where
  title : Option Str
  authors : List Str
  year : Str
  venue : Str
  url : Str
  abstract : Option Str
  deriving DecidableEq

/-- An HTTP response from the metadata API. -/
structure AcadResp where
  status : Nat
  json : Except Str (List Paper)

/-- Author display text (lines 278-283): keep the non-empty names, take the
first 3, append the `et al.` element when the raw author list has more
than 3 entries, join with `, `, and default to `Unknown authors` when the
joined list is empty. -/
def author_text (authors : List Str) : Str :=
  if (if 3 < authors.length
      then ((authors.filter (fun s => s ≠ [])).take 3) ++ [lit "et al."]
      else (authors.filter (fun s => s ≠ [])).take 3) = []
  then lit "Unknown authors"
  else List.intercalate (lit ", ")
    (if 3 < authors.length
     then ((authors.filter (fun s => s ≠ [])).take 3) ++ [lit "et al."]
     else (authors.filter (fun s => s ≠ [])).take 3)

/-- Publication info line (lines 286-290). -/
def pubInfo (p : Paper) : Str :=
  author_text p.authors ++ lit " (" ++ p.year ++ lit ")"
    ++ (if p.venue ≠ [] then lit " - " ++ p.venue else [])

/-- Per-paper rendering (lines 305-310): numbered title line, URL line only
when the paper has a URL, publication-info line, abstract-snippet line. -/
def formatPapers : Nat → List Paper → Str
  | _, [] => []
  | i, p :: rest =>
    natStr i ++ lit ". " ++ ((p.title.getD (lit "Untitled Paper")).take 100) ++ lit "\n"
      ++ (if p.url.take 150 ≠ [] then lit "   URL: " ++ p.url.take 150 ++ lit "\n" else [])
      ++ lit "   " ++ (pubInfo p).take 150 ++ lit "\n"
      ++ lit "   " ++ ((p.abstract.getD (lit "No abstract available")).take 200) ++ lit "\n\n"
      ++ formatPapers (i + 1) rest

/-- Function `_academic_search` (lines 250-316; underscore dropped as for
`_web_search`): a transport failure re-raises; a non-200 status returns an
in-band error string carrying the literal status code, before the body is
ever decoded; a JSON decode failure re-raises; an empty paper list returns
a fixed sentence; otherwise the papers are rendered. -/
def academic_search (query : Str) (fetch : Except Str AcadResp) : Except Str Str :=
  match fetch with
  | .error e => .error e
  | .ok resp =>
    if resp.status ≠ 200 then
      .ok (lit "Academic search error: API returned status " ++ natStr resp.status)
    else
      match resp.json with
      | .error e => .error e
      | .ok papers =>
        if papers = [] then
          .ok (lit "No academic results found. Try refining your search.")
        else
          .ok (lit "Academic search results for: " ++ query ++ lit "\n\n"
            ++ formatPapers 1 papers)

/-- C7: for every response from the academic endpoint whose status is not
200, `_academic_search` returns (rather than raises) a string containing
the literal status code. -/
theorem academic_search_non200 (query : Str) (resp : AcadResp)
    (h : resp.status ≠ 200) :
    academic_search query (.ok resp)
        = .ok (lit "Academic search error: API returned status " ++ natStr resp.status)
      ∧ natStr resp.status
          <:+: (lit "Academic search error: API returned status " ++ natStr resp.status) := by
  constructor
  · rw [academic_search]
    simp [h]
  · exact ⟨lit "Academic search error: API returned status ", [], by simp⟩

/-- Witness: C7 at a concrete 500 response with an undecodable body (the
body is never touched on the non-200 path). -/
theorem academic_search_non200_witness :
    academic_search (lit "q") (.ok ⟨500, .error (lit "bad json")⟩)
        = .ok (lit "Academic search error: API returned status " ++ natStr 500)
      ∧ natStr 500
          <:+: (lit "Academic search error: API returned status " ++ natStr 500) :=
  academic_search_non200 (lit "q") ⟨500, .error (lit "bad json")⟩ (by decide)

/-- Modelled on the claim's words (refinement reference for C8): the first
3 non-empty author names joined with `, `, with `et al.` appended exactly
when the raw author list has more than 3 entries, and `Unknown authors`
when no name is shown and no suffix is added. -/
def authorDisplayClaim (authors : List Str) : Str :=
  if 3 < authors.length then
    List.intercalate (lit ", ") (((authors.filter (fun s => s ≠ [])).take 3) ++ [lit "et al."])
  else if (authors.filter (fun s => s ≠ [])).take 3 = [] then lit "Unknown authors"
  else List.intercalate (lit ", ") ((authors.filter (fun s => s ≠ [])).take 3)

/-- C8: the author display follows the claim exactly — first 3 non-empty
names, `et al.` appended iff the raw list has more than 3 entries
(regardless of whether the omitted entries carry names), `Unknown authors`
only when no name is shown and no suffix is added. -/
theorem author_text_spec (authors : List Str) :
    author_text authors = authorDisplayClaim authors := by
  by_cases h3 : 3 < authors.length
  · rw [author_text, authorDisplayClaim, if_pos h3, if_pos h3, if_neg (by simp)]
  · rw [author_text, authorDisplayClaim, if_neg h3, if_neg h3]

/-! ## The link extractor `_follow_link` (lines 318-382)

The HTTP fetch is an `Except`-valued input carrying status, content-type
header (empty for absent) and body.  BeautifulSoup is an oracle
`parse : Str -> Doc` applied to the first 100000 characters of the body; a
`Doc` holds the document title element text (`none` when the element or
its string is absent), the `meta description` content attribute, the
element stream in document order with tags, and the whole-document visible
text (`soup.get_text()`). -/

/-- Element tags distinguished by the extractor. -/
inductive Tag
  | p
  | h1
  | h2
  | h3
  | other
  deriving DecidableEq

/-- A parsed document, the abstraction of a BeautifulSoup soup. -/
structure Doc where
  title : Option Str
  metaDescription : Option Str
  elements : List (Tag × Str)
  allText : Str
  deriving DecidableEq

/-- An HTTP response as seen by `_follow_link`. -/
structure HttpResp where
  status : Nat
  contentType : Str
  body : Str
  deriving DecidableEq

/-- Model of `re.sub(r'\s+', ' ', text)`: every maximal whitespace run
becomes a single space.  The flag records whether the previous character
belonged to a whitespace run. -/
def collapseWsGo : Bool → Str → Str
  | _, [] => []
  | prevWs, c :: tl =>
    if c.isWhitespace then
      if prevWs then collapseWsGo true tl else ' ' :: collapseWsGo true tl
    else c :: collapseWsGo false tl

/-- Whitespace collapsing over a whole text (line 371). -/
def collapseWs (s : Str) : Str := collapseWsGo false s

/-- `soup.find_all('p')`: the paragraph texts in document order. -/
def docParagraphs (d : Doc) : List Str :=
  (d.elements.filter (fun el => el.1 = Tag.p)).map (fun el => el.2)

/-- `soup.find_all(['h1','h2','h3','p'])`: heading (levels 1-3) and
paragraph texts together, in document order. -/
def docHeadParas (d : Doc) : List Str :=
  (d.elements.filter
      (fun el => el.1 = Tag.h1 ∨ el.1 = Tag.h2 ∨ el.1 = Tag.h3 ∨ el.1 = Tag.p)).map
    (fun el => el.2)

/-- First cascade rule (lines 350-356): among the first 5 paragraph
elements, the stripped texts longer than 15 characters, each capped to
300. -/
def tier1 (d : Doc) : List Str :=
  ((docParagraphs d).take 5).filterMap (fun s =>
    if 15 < (pyStrip s).length then some ((pyStrip s).take 300) else none)

/-- Second cascade rule's scan (lines 360-366): among the first 8 heading
or paragraph elements, the stripped texts longer than 10 characters, each
capped to 200. -/
def scanFrags (d : Doc) : List Str :=
  ((docHeadParas d).take 8).filterMap (fun s =>
    if 10 < (pyStrip s).length then some ((pyStrip s).take 200) else none)

/-- The fragment list after the first two cascade rules (lines 350-366):
when the paragraph rule found fewer than 2 fragments, the heading or
paragraph scan is appended to it (the code `append`s to `content_texts`,
it does not replace it). -/
def tier12 (d : Doc) : List Str :=
  if (tier1 d).length < 2 then tier1 d ++ scanFrags d else tier1 d

/-- The final fragment list (lines 368-372): when still empty, the
whole-document text, whitespace-collapsed, stripped and capped to 500, as
a single fragment. -/
def contentTexts (d : Doc) : List Str :=
  if tier12 d = [] then [(pyStrip (collapseWs d.allText)).take 500] else tier12 d

/-- Document title with default (line 340). -/
def docTitle (d : Doc) : Str :=
  match d.title with
  | some s => if s = [] then lit "No title" else pyStrip s
  | none => lit "No title"

/-- Meta description with default (lines 343-344). -/
def docDescription (d : Doc) : Str :=
  d.metaDescription.getD (lit "No description available")

/-- Function `_follow_link` (lines 318-382; underscore dropped as before):
transport failures re-raise; a PDF content type short-circuits to the
fixed placeholder; otherwise the first 100000 characters of the body are
parsed and rendered as a `Title/URL/Description/Content` block.  The
response status is never consulted. -/
def follow_link (url : Str) (parse : Str → Doc) (fetch : Except Str HttpResp) : Except Str Str :=
  match fetch with
  | .error e => .error e
  | .ok resp =>
    if lit "application/pdf" <:+: pyLower resp.contentType then
      .ok (lit "Title: PDF Document\nURL: " ++ url
        ++ lit "\n\nContent: [PDF document - contents cannot be extracted directly]")
    else
      .ok (lit "Title: " ++ (docTitle (parse (resp.body.take 100000))).take 100
        ++ lit "\nURL: " ++ url
        ++ lit "\nDescription: " ++ (docDescription (parse (resp.body.take 100000))).take 200
        ++ lit "\n\nContent:\n"
        ++ List.intercalate (lit "\n\n") (contentTexts (parse (resp.body.take 100000))))

/-- C3 (amended): when the paragraph rule yields fewer than 2 fragments,
the heading/paragraph scan's fragments are appended after the retained
paragraph-rule fragments (not substituted for them), and the whole-text
fallback is skipped whenever the combined list is non-empty; in particular
a page with no qualifying paragraph and 3 headings longer than 10
characters yields exactly the heading-tier fragments. -/
theorem contentTexts_fallback_append (d : Doc)
    (h1 : (tier1 d).length < 2) (h2 : tier1 d ++ scanFrags d ≠ []) :
    contentTexts d = tier1 d ++ scanFrags d := by
  have ht : tier12 d = tier1 d ++ scanFrags d := by rw [tier12, if_pos h1]
  rw [contentTexts, ht, if_neg h2]

/-- A page with no paragraphs and 3 headings, the claim's own scenario. -/
def headingsDoc : Doc :=
  ⟨none, none,
    [(Tag.h1, lit "Heading number one"), (Tag.h2, lit "Heading number two"),
     (Tag.h3, lit "Heading number three")],
    lit "ignored page text"⟩

/-- Witness: C3's particular scenario — 0 paragraphs, 3 headings longer
than 10 characters — produces the heading-tier fragments, not the
whole-text fallback. -/
theorem contentTexts_fallback_append_witness :
    contentTexts headingsDoc = tier1 headingsDoc ++ scanFrags headingsDoc
      ∧ contentTexts headingsDoc
          = [lit "Heading number one", lit "Heading number two", lit "Heading number three"] :=
  ⟨contentTexts_fallback_append headingsDoc (by decide) (by decide), by decide⟩

/-- A page whose single paragraph qualifies for the first rule. -/
def mixedDoc : Doc :=
  ⟨none, none, [(Tag.p, lit "This paragraph easily has sixteen characters")], lit "ignored"⟩

/-- Counterexample to C3 as stated: with exactly 1 qualifying paragraph the
second tier does not replace the first rule's fragment — the code appends,
so the paragraph's fragment is retained (and the paragraph is even
re-collected by the combined scan), contradicting `taken instead ... not
mixed`. -/
theorem contentTexts_mixing_cex :
    (tier1 mixedDoc).length = 1
      ∧ contentTexts mixedDoc
          = [lit "This paragraph easily has sixteen characters",
             lit "This paragraph easily has sixteen characters"]
      ∧ contentTexts mixedDoc ≠ scanFrags mixedDoc := by decide

/-- C10: `_follow_link` never treats the response status as a failure —
for every non-PDF response, whatever the status, the body is parsed and a
normal `Title/URL/Description/Content` block is returned; the result does
not depend on the status at all, and only transport (or parse-oracle)
failures propagate as errors. -/
theorem follow_link_ignores_status (url : Str) (parse : Str → Doc) (resp : HttpResp)
    (s2 : Nat) (hpdf : ¬ lit "application/pdf" <:+: pyLower resp.contentType) :
    (∃ t dsc c : Str,
        follow_link url parse (.ok resp)
          = .ok (lit "Title: " ++ t ++ lit "\nURL: " ++ url ++ lit "\nDescription: " ++ dsc
              ++ lit "\n\nContent:\n" ++ c))
    ∧ follow_link url parse (.ok { resp with status := s2 }) = follow_link url parse (.ok resp)
    ∧ (∀ e : Str, follow_link url parse (.error e) = .error e) := by
  obtain ⟨st, ct, bd⟩ := resp
  refine ⟨⟨(docTitle (parse (bd.take 100000))).take 100,
      (docDescription (parse (bd.take 100000))).take 200,
      List.intercalate (lit "\n\n") (contentTexts (parse (bd.take 100000))), ?_⟩, ?_, fun e => rfl⟩
  · show (if lit "application/pdf" <:+: pyLower ct then _ else _ : Except Str Str) = _
    rw [if_neg hpdf]
  · rfl

/-- Witness: C10 at a concrete 404 HTML response. -/
theorem follow_link_ignores_status_witness :
    ∃ t dsc c : Str,
      follow_link (lit "http://x") (fun _ => Doc.mk none none [] [])
          (.ok ⟨404, lit "text/html", lit "<p></p>"⟩)
        = .ok (lit "Title: " ++ t ++ lit "\nURL: " ++ lit "http://x" ++ lit "\nDescription: "
            ++ dsc ++ lit "\n\nContent:\n" ++ c) :=
  (follow_link_ignores_status (lit "http://x") (fun _ => Doc.mk none none [] [])
    ⟨404, lit "text/html", lit "<p></p>"⟩ 500 (by decide)).1

end DeepResearch
